import Mathlib

/-!
Shallow embedding of the Bitcoin Sprint FastAPI gateway
(src/Bitcoin_Sprint_fastapi/fastapi-gateway/main.py).

Modelling conventions:
* Python dicts of header or query values become association lists with the
  usual dict operations (get, pop, set); inbound HTTP header names arrive
  lowercased (ASGI servers lowercase them before Starlette exposes them),
  while names written by the gateway code keep their literal casing.
* Timestamps are natural numbers; `datetime.utcnow()` is a `now` parameter.
* The Redis client is modelled by a reachability flag `redisUp`, a read-only
  table `apiKeys` of stored API-key records, and an explicit counter state
  for the one rate-limit key a principal uses.
* JWT decoding (`jose.jwt.decode`) is an oracle `String → JwtResult`: either
  the decoded claims dict or a `JWTError` (bad signature / bad expiry).
* The backend is an oracle `script : Nat → BackendResult` indexed by the
  number of calls made so far; the gateway state records every outbound call
  so that claims about forwarding and call counts are statable.
-/

namespace Gateway

/-- Headers and query parameters: a Python dict as an association list. -/
abbrev Headers := List (String × String)

/-- Python `d.get(k)`: first binding wins (dict keys are unique anyway). -/
def dictGet : Headers → String → Option String
  | [], _ => none
  | (k1, v) :: rest, k => if k1 = k then some v else dictGet rest k

/-- Python `d.pop(k, None)`: drop the binding of `k` (keys are unique, so
dropping every binding is the same operation). -/
def dictPop : Headers → String → Headers
  | [], _ => []
  | (k1, v) :: rest, k =>
      if k1 = k then dictPop rest k else (k1, v) :: dictPop rest k

/-- Python `d[k] = v`: update in place if present, else append. -/
def dictSet : Headers → String → String → Headers
  | [], k, v => [(k, v)]
  | (k1, v1) :: rest, k, v =>
      if k1 = k then (k, v) :: rest else (k1, v1) :: dictSet rest k v

/-- Model of the `APIKey` pydantic record stored in Redis (main.py 165-172). -/
structure APIKey where
  key : String
  name : String
  created_at : Nat := 0
  expires_at : Option Nat := none
  tier : String := "free"
  rate_limit : Nat := 100
  enabled : Bool := true
deriving DecidableEq

/-- Model of the `User` pydantic record (main.py 155-160). -/
structure User where
  username : String
  email : Option String := none
  full_name : Option String := none
  disabled : Option Bool := none
  tier : String := "free"
deriving DecidableEq

/-- Result of `jose.jwt.decode`: decoded claims dict, or a `JWTError`. -/
inductive JwtResult where
  | ok (claims : Headers)
  | err
deriving DecidableEq

/-- Outcome of `authenticate_request`: a resolved principal, `None`
(anonymous), or an `HTTPException(401, detail)` raised to the caller. -/
inductive AuthOutcome where
  | principal (u : User)
  | anonymous
  | unauthorized (detail : String)
deriving DecidableEq

/-- Embedding of `get_current_user` (main.py 202-224): decode the token;
on `JWTError` or a missing `sub` claim raise the 401 credentials exception
(modelled as `Except.error ()`); otherwise build the mock user, whose tier
is the literal `"pro"` (main.py 219-223). -/
def get_current_user (jwtDecode : String → JwtResult) (token : String) :
    Except Unit User :=
  match jwtDecode token with
  | .err => .error ()
  | .ok payload =>
    match dictGet payload "sub" with
    | none => .error ()
    | some username =>
        .ok { username := username
              email := some (username ++ "@example.com")
              tier := "pro" }

/-- Embedding of `get_api_key_from_header` (main.py 226-231): the
`x-api-key` header, or — when that is absent or empty (Python falsiness of
`""`) — the `api_key` query parameter. -/
def get_api_key_from_header (headers query : Headers) : Option String :=
  match dictGet headers "x-api-key" with
  | some s => if s = "" then dictGet query "api_key" else some s
  | none => dictGet query "api_key"

/-- Embedding of `validate_api_key` (main.py 233-246): `None` when the Redis
client is absent; otherwise the parsed record stored under
`api_key:{api_key}`, or `None` when missing (lookup and parse errors are
logged and also yield `None`, which the table `apiKeys` absorbs). -/
def validate_api_key (apiKeys : String → Option APIKey) (redisUp : Bool)
    (api_key : String) : Option APIKey :=
  if redisUp then apiKeys api_key else none

/-- Python `s.startswith(pre)`, computed on the character list so that the
kernel can evaluate it. -/
def strStartsWith (s pre : String) : Bool :=
  pre.data.isPrefixOf s.data

/-- Helper for `splitSpace`: accumulate the current word (reversed). -/
def splitSpaceAux : List Char → List Char → List (List Char)
  | [], acc => [acc.reverse]
  | c :: cs, acc =>
      if c = ' ' then acc.reverse :: splitSpaceAux cs []
      else splitSpaceAux cs (c :: acc)

/-- Python `s.split(" ")`: split on every single space, keeping empty
words, computed on the character list. -/
def splitSpace (s : String) : List String :=
  (splitSpaceAux s.data []).map String.mk

/-- Embedding of the JWT fallback inside `authenticate_request`
(main.py 263-272): read the `authorization` header; when it is truthy and
starts with `"Bearer "`, call `get_current_user` on the second
space-separated word. The whole block sits in `try/except Exception: pass`,
so the 401 raised by `get_current_user` is swallowed and the function falls
through to `return None` (anonymous). -/
def jwt_fallback (jwtDecode : String → JwtResult) (headers : Headers) :
    AuthOutcome :=
  match dictGet headers "authorization" with
  | some auth_header =>
      if auth_header ≠ "" ∧ strStartsWith auth_header "Bearer " then
        match get_current_user jwtDecode ((splitSpace auth_header).getD 1 "") with
        | .ok u => .principal u
        | .error _ => .anonymous
      else .anonymous
  | none => .anonymous

/-- Embedding of `authenticate_request` (main.py 248-272). When a truthy API
key is presented and its record is found and enabled: raise 401 when it is
expired (`expires_at` set and `now > expires_at`), else return the key
principal. When the record is missing or disabled (`if key_info and
key_info.enabled` is false) the code falls through to the JWT fallback. -/
def authenticate_request (apiKeys : String → Option APIKey) (redisUp : Bool)
    (jwtDecode : String → JwtResult) (now : Nat)
    (headers query : Headers) : AuthOutcome :=
  match get_api_key_from_header headers query with
  | some api_key =>
    if api_key ≠ "" then
      match validate_api_key apiKeys redisUp api_key with
      | some key_info =>
        if key_info.enabled then
          match key_info.expires_at with
          | some e =>
              if now > e then .unauthorized "API key expired"
              else .principal { username := "api_key_" ++ key_info.name
                                tier := key_info.tier }
          | none => .principal { username := "api_key_" ++ key_info.name
                                 tier := key_info.tier }
        else jwt_fallback jwtDecode headers
      | none => jwt_fallback jwtDecode headers
    else jwt_fallback jwtDecode headers
  | none => jwt_fallback jwtDecode headers

/-! Proxy forwarder (main.py 275-329). -/

/-- Result of one backend transport attempt (`client.request`): a response,
an `httpx.TimeoutException`, or any other `httpx.RequestError` (connection
refused, DNS failure, TLS failure — httpx raises `TimeoutException`
subclasses before the generic handler catches the rest). -/
inductive BackendResult where
  | success (status : Nat) (headers : Headers) (body : String)
  | timeout
  | transportError
deriving DecidableEq

/-- Response the gateway hands back to the original caller. -/
structure Resp where
  status : Nat
  headers : Headers
  body : String
deriving DecidableEq

/-- Outcome of `proxy_request`: a relayed response, or an
`HTTPException(status, detail)` raised to the handler. -/
inductive ProxyOutcome where
  | ok (resp : Resp)
  | httpError (status : Nat) (detail : String)
deriving DecidableEq

/-- Record of one outbound call made to the backend. -/
structure CallRec where
  method : String
  path : String
  headers : Headers
  query : Headers
  body : String
deriving DecidableEq

/-- Fixed hop-by-hop header list of main.py 287-290. -/
def hop_by_hop_headers : List String :=
  ["connection", "keep-alive", "proxy-authenticate",
   "proxy-authorization", "te", "trailers", "transfer-encoding", "upgrade"]

/-- The `for header in hop_by_hop_headers: headers.pop(header, None)` loop
(main.py 291-292 and 315-316). -/
def stripHop (d : Headers) : Headers :=
  hop_by_hop_headers.foldl dictPop d

/-- Outbound header preparation of `proxy_request` (main.py 284-297): copy
the inbound dict, pop the hop-by-hop names, then — only when a principal was
resolved — set `X-User-Tier` and `X-User-Username` from the principal.
Nothing else is removed: client-supplied entries under the lowercase inbound
names `x-user-tier` / `x-user-username` survive. -/
def buildOutboundHeaders (inbound : Headers) (user : Option User) : Headers :=
  let headers := stripHop inbound
  match user with
  | some u => dictSet (dictSet headers "X-User-Tier" u.tier)
                "X-User-Username" u.username
  | none => headers

/-- Embedding of `proxy_request` (main.py 275-329): build the outbound
headers, make exactly one backend call, and either relay the response with
hop-by-hop headers stripped, or convert the transport failure: timeout →
504, any other transport error → 502. No retry is attempted. The returned
`CallRec` is the single outbound call made. -/
def proxy_request (script : Nat → BackendResult) (nCalls : Nat)
    (method path : String) (inboundHeaders query : Headers) (body : String)
    (user : Option User) : ProxyOutcome × CallRec :=
  let headers := buildOutboundHeaders inboundHeaders user
  let callRec : CallRec :=
    { method := method, path := path, headers := headers,
      query := query, body := body }
  match script nCalls with
  | .success st rh rb =>
      (.ok { status := st, headers := stripHop rh, body := rb }, callRec)
  | .timeout => (.httpError 504 "Backend service timeout", callRec)
  | .transportError => (.httpError 502 "Backend service unavailable", callRec)

/-! Rate limiter and full request pipeline (main.py 476-551). -/

/-- State of the single Redis counter key `rate_limit:{username}` used by a
principal: absent, or a value with an optional absolute expiry time. -/
abbrev CounterState := Option (Nat × Option Nat)

/-- A Redis key with an expiry at or before the current time is gone. -/
def liveEntry (st : CounterState) (t : Nat) : CounterState :=
  match st with
  | none => none
  | some (v, none) => some (v, none)
  | some (v, some e) => if e ≤ t then none else some (v, some e)

/-- Redis `INCR`: create the key at 1 (no expiry) when absent or expired,
else increment keeping the expiry; returns the post-increment value. -/
def redisIncr (st : CounterState) (t : Nat) : Nat × CounterState :=
  match liveEntry st t with
  | none => (1, some (1, none))
  | some (v, e) => (v + 1, some (v + 1, e))

/-- Redis `EXPIRE key ttl`: set the expiry of a live key; no-op when the
key is absent. -/
def redisExpire (st : CounterState) (t ttl : Nat) : CounterState :=
  match liveEntry st t with
  | none => none
  | some (v, _) => some (v, some (t + ttl))

/-- The tier-limit table `tier_limits` with its `.get(user.tier, 10)`
default (main.py 488-493). -/
def tier_limits (tier : String) : Nat :=
  if tier = "free" then 10
  else if tier = "pro" then 100
  else if tier = "enterprise" then 1000
  else 10

/-- One pass of the handler's rate-limit section (main.py 497-508):
`current = INCR key`; when `current == 1` set a 60-second expiry; admit iff
`current` does not exceed the tier limit. -/
def rateLimitStep (tier : String) (st : CounterState) (t : Nat) :
    Bool × CounterState :=
  let incrRes := redisIncr st t
  let newSt := if incrRes.1 = 1 then redisExpire incrRes.2 t 60 else incrRes.2
  (decide (incrRes.1 ≤ tier_limits tier), newSt)

/-- One metrics observation: an increment of
`REQUEST_COUNT.labels(method, endpoint, status)` (main.py 129-133). -/
structure MetricObs where
  method : String
  endpoint : String
  status : String
deriving DecidableEq

/-- Mutable context a request runs against: the principal's rate counter,
the log of backend calls already made, and the recorded metrics. -/
structure GatewayState where
  counter : CounterState
  calls : List CallRec
  metrics : List MetricObs
deriving DecidableEq

/-- What the original caller observes: a relayed response or an
`HTTPException(status, detail)`. -/
inductive PipelineResult where
  | response (r : Resp)
  | error (status : Nat) (detail : String)
deriving DecidableEq

/-- Principal extracted from the auth outcome (`user` parameter of the
handler): `unauthorized` never reaches the handler body. -/
def AuthOutcome.toUser : AuthOutcome → Option User
  | .principal u => some u
  | _ => none

/-- Embedding of the `proxy_all_requests` handler together with its
`authenticate_request` dependency (main.py 476-551). A 401 raised by the
dependency reaches the caller before the handler body runs (no metrics, no
backend call). Inside the body: when a principal was resolved and Redis is
up, run the rate-limit section; on rejection record a "429" observation and
raise 429 without forwarding. Otherwise forward through `proxy_request`; a
relayed response records an observation labelled with its status, while an
`HTTPException` from the proxy (504/502) is re-raised by the
`except HTTPException: raise` arm with no observation recorded. -/
def proxy_all_requests (apiKeys : String → Option APIKey) (redisUp : Bool)
    (jwtDecode : String → JwtResult) (script : Nat → BackendResult)
    (now : Nat) (method path : String) (headers query : Headers)
    (body : String) (st : GatewayState) : PipelineResult × GatewayState :=
  match authenticate_request apiKeys redisUp jwtDecode now headers query with
  | .unauthorized d => (.error 401 d, st)
  | authOut =>
    let user := authOut.toUser
    let rl : Bool × CounterState :=
      match user with
      | some u =>
          if redisUp then rateLimitStep u.tier st.counter now
          else (true, st.counter)
      | none => (true, st.counter)
    if rl.1 then
      let pr := proxy_request script st.calls.length method path headers
        query body user
      match pr.1 with
      | .ok resp =>
          (.response resp,
           { counter := rl.2, calls := st.calls ++ [pr.2],
             metrics := st.metrics ++
               [{ method := method, endpoint := path,
                  status := toString resp.status }] })
      | .httpError s d =>
          (.error s d,
           { counter := rl.2, calls := st.calls ++ [pr.2],
             metrics := st.metrics })
    else
      (.error 429 "Rate limit exceeded",
       { counter := rl.2, calls := st.calls,
         metrics := st.metrics ++
           [{ method := method, endpoint := path, status := "429" }] })

/-- The rate-limit decision the handler body computes (with Redis up) for a
given auth outcome: the rate-limit step for a resolved principal, and an
unconditional admit for an anonymous request — exactly the `rl` value
inside `proxy_all_requests`. -/
def admitDecision (out : AuthOutcome) (c : CounterState) (now : Nat) :
    Bool × CounterState :=
  match out.toUser with
  | some u => rateLimitStep u.tier c now
  | none => (true, c)

/-- Sequential runs of the rate-limit section for one principal, one entry
per request time. -/
def runLimiter (tier : String) : List Nat → CounterState → List Bool × CounterState
  | [], st => ([], st)
  | t :: ts, st =>
      let step := rateLimitStep tier st t
      let rest := runLimiter tier ts step.2
      (step.1 :: rest.1, rest.2)

/-! Health monitoring (main.py 372-389 and 442-451). -/

/-- Result of one background poll of `{backend}/health`: an HTTP status, or
any exception (connection failure, timeout, ...). -/
inductive PollResult where
  | ok (status : Nat)
  | exn
deriving DecidableEq

/-- Embedding of `check_backend_health` (main.py 372-382): status 200 →
"healthy", any other status → "unhealthy", any exception → "unreachable". -/
def check_backend_health : PollResult → String
  | .ok s => if s = 200 then "healthy" else "unhealthy"
  | .exn => "unreachable"

/-- Value of the global `backend_status` after the poll loop of
`update_backend_status` (main.py 384-389) has processed `polls`, starting
from `init` (initially the literal "unknown", main.py 183): each iteration
overwrites the global with the latest poll's classification. -/
def update_backend_status (init : String) (polls : List PollResult) : String :=
  polls.foldl (fun _ p => check_backend_health p) init

/-- Model of the `HealthResponse` pydantic record (main.py 174-179). -/
structure HealthResponse where
  status : String
  timestamp : Nat
  version : String
  uptime : Nat
  backend_status : String
deriving DecidableEq

/-- Embedding of the `/health` endpoint (main.py 442-451): a pure function
of the stored `backend_status` snapshot and the clock — it performs no
backend call. -/
def health_check (backendStatus : String) (nowTime uptime : Nat) :
    HealthResponse :=
  { status := "healthy", timestamp := nowTime, version := "1.0.0",
    uptime := uptime, backend_status := backendStatus }

/-! Concrete instances used by witnesses and counterexamples. -/

/-- Checks whether an auth outcome is the raised 401. -/
def AuthOutcome.isUnauthorized : AuthOutcome → Bool
  | .unauthorized _ => true
  | _ => false

/-- JWT oracle on which every decode fails (bad signature or expiry). -/
def jdRejectAll : String → JwtResult := fun _ => .err

/-- JWT oracle accepting exactly the token "tok", whose claims carry a
subject but no tier claim. -/
def jdAlice : String → JwtResult := fun t =>
  if t = "tok" then .ok [("sub", "alice")] else .err

/-- Store holding one disabled API-key record under "k1". -/
def storeDisabledKey : String → Option APIKey := fun k =>
  if k = "k1" then some { key := "k1", name := "n1", enabled := false }
  else none

/-- Store holding one enabled record under "k2" that expired at time 5. -/
def storeExpiredKey : String → Option APIKey := fun k =>
  if k = "k2" then some { key := "k2", name := "n2", expires_at := some 5 }
  else none

/-- Store holding one enabled free-tier record under "kf". -/
def storeFreeKey : String → Option APIKey := fun k =>
  if k = "kf" then some { key := "kf", name := "alice", tier := "free" }
  else none

/-- Empty credential store. -/
def storeEmpty : String → Option APIKey := fun _ => none

/-- Backend that always answers 200 with body "ok". -/
def scriptAlwaysOk : Nat → BackendResult := fun _ => .success 200 [] "ok"

/-- Backend on which every call times out. -/
def scriptAlwaysTimeout : Nat → BackendResult := fun _ => .timeout

/-- Backend on which every call fails at the transport level. -/
def scriptAlwaysDown : Nat → BackendResult := fun _ => .transportError

/-- Fresh gateway state: no counter, no calls, no metrics. -/
def initialState : GatewayState :=
  { counter := none, calls := [], metrics := [] }

/-- The mock user `get_current_user` builds for subject "alice". -/
def aliceUser : User :=
  { username := "alice", email := some "alice@example.com", tier := "pro" }

/-- The principal resolved from the record stored by `storeFreeKey`. -/
def freeKeyUser : User :=
  { username := "api_key_alice", tier := "free" }

/-- An arbitrary principal used to exercise header injection. -/
def bobUser : User :=
  { username := "bob", tier := "enterprise" }

/-- Gateway state whose rate counter already sits at the free-tier limit
inside a window expiring at time 60. -/
def overLimitState : GatewayState :=
  { counter := some (10, some 60), calls := [], metrics := [] }

/-! Dictionary lemmas. -/

lemma dictGet_dictPop (d : Headers) (k h : String) :
    dictGet (dictPop d k) h = if h = k then none else dictGet d h := by
  induction d with
  | nil => simp [dictPop, dictGet]
  | cons p rest ih =>
      obtain ⟨k1, v⟩ := p
      by_cases h1 : k1 = k <;> by_cases h2 : k1 = h <;> by_cases h3 : h = k <;>
        simp_all [dictPop, dictGet]

lemma dictGet_dictSet (d : Headers) (k v h : String) :
    dictGet (dictSet d k v) h = if h = k then some v else dictGet d h := by
  induction d with
  | nil =>
      by_cases h2 : h = k <;> simp [dictSet, dictGet, h2]
      exact fun e => h2 e.symm
  | cons p rest ih =>
      obtain ⟨k1, v1⟩ := p
      by_cases h1 : k1 = k <;> by_cases h2 : k1 = h <;> by_cases h3 : h = k <;>
        simp_all [dictSet, dictGet]

lemma dictGet_foldl_dictPop (l : List String) (d : Headers) (h : String) :
    dictGet (l.foldl dictPop d) h = if h ∈ l then none else dictGet d h := by
  induction l generalizing d with
  | nil => simp
  | cons k rest ih =>
      by_cases hk : h = k
      · subst hk
        by_cases hmem : h ∈ rest <;>
          simp [List.foldl, ih, dictGet_dictPop, hmem]
      · by_cases hmem : h ∈ rest <;>
          simp [List.foldl, ih, dictGet_dictPop, hk, hmem]

lemma dictGet_stripHop (d : Headers) (h : String) :
    dictGet (stripHop d) h = if h ∈ hop_by_hop_headers then none else dictGet d h := by
  simpa [stripHop] using dictGet_foldl_dictPop hop_by_hop_headers d h

lemma hop_name_ne_injected (h : String) (hmem : h ∈ hop_by_hop_headers) :
    h ≠ "X-User-Tier" ∧ h ≠ "X-User-Username" := by
  fin_cases hmem <;> exact ⟨by decide, by decide⟩

/-- C8: none of the eight hop-by-hop headers crosses the proxy boundary in
either direction — each is absent from the outbound backend headers (for
any inbound header set and any resolved principal) and absent from the
response headers returned to the caller — while every other header is
copied unchanged (on the request side, up to the two injected
`X-User-Tier` / `X-User-Username` names). -/
theorem C8_hop_by_hop_stripped (inbound rh : Headers) (user : Option User) :
    (∀ h ∈ hop_by_hop_headers,
        dictGet (buildOutboundHeaders inbound user) h = none ∧
        dictGet (stripHop rh) h = none) ∧
    (∀ h, h ∉ hop_by_hop_headers →
        dictGet (stripHop rh) h = dictGet rh h ∧
        (h ≠ "X-User-Tier" → h ≠ "X-User-Username" →
          dictGet (buildOutboundHeaders inbound user) h = dictGet inbound h)) := by
  constructor
  · intro h hmem
    obtain ⟨ht, hu⟩ := hop_name_ne_injected h hmem
    refine ⟨?_, by simp [dictGet_stripHop, hmem]⟩
    cases user with
    | none => simp [buildOutboundHeaders, dictGet_stripHop, hmem]
    | some u =>
        simp [buildOutboundHeaders, dictGet_dictSet, dictGet_stripHop,
          hmem, ht, hu]
  · intro h hmem
    refine ⟨by simp [dictGet_stripHop, hmem], fun ht hu => ?_⟩
    cases user with
    | none => simp [buildOutboundHeaders, dictGet_stripHop, hmem]
    | some u =>
        simp [buildOutboundHeaders, dictGet_dictSet, dictGet_stripHop,
          hmem, ht, hu]

/-- Witness for C8 at a concrete request/response pair. -/
theorem C8_hop_by_hop_stripped_witness :
    dictGet (buildOutboundHeaders [("connection", "close"), ("accept", "a")]
      (some bobUser)) "connection" = none ∧
    dictGet (stripHop [("transfer-encoding", "chunked"), ("etag", "x")])
      "transfer-encoding" = none ∧
    dictGet (stripHop [("transfer-encoding", "chunked"), ("etag", "x")])
      "etag" = dictGet [("transfer-encoding", "chunked"), ("etag", "x")] "etag" ∧
    dictGet (buildOutboundHeaders [("connection", "close"), ("accept", "a")]
      (some bobUser)) "accept" =
      dictGet [("connection", "close"), ("accept", "a")] "accept" := by
  have h := C8_hop_by_hop_stripped [("connection", "close"), ("accept", "a")]
    [("transfer-encoding", "chunked"), ("etag", "x")] (some bobUser)
  exact ⟨(h.1 "connection" (by decide)).1, (h.1 "transfer-encoding" (by decide)).2,
    (h.2 "etag" (by decide)).1, (h.2 "accept" (by decide)).2 (by decide) (by decide)⟩

/-- C2 is refuted: an anonymous request carrying a client-supplied
`x-user-tier` header resolves to no principal, yet the one backend call the
pipeline makes still carries that client-supplied header — the gateway
never strips the configured tier header from the inbound set. -/
theorem C2_counterexample :
    authenticate_request storeEmpty true jdRejectAll 0
      [("x-user-tier", "enterprise")] [] = .anonymous ∧
    ((proxy_all_requests storeEmpty true jdRejectAll scriptAlwaysOk 0 "GET"
        "status" [("x-user-tier", "enterprise")] [] "" initialState).2.calls.map
      (fun c => dictGet c.headers "x-user-tier")) = [some "enterprise"] := by
  decide

/-- C2 amended: the gateway injects `X-User-Tier` / `X-User-Username` with
the principal's own tier and identifier exactly when a principal was
resolved, and anonymous calls get no injection; but client-supplied
headers under any other name — including the lowercase inbound spellings
`x-user-tier` / `x-user-username` — are not stripped and reach the backend
unchanged. -/
theorem C2_amended_injection :
    (∀ (inbound : Headers) (u : User),
        dictGet (buildOutboundHeaders inbound (some u)) "X-User-Tier" =
          some u.tier ∧
        dictGet (buildOutboundHeaders inbound (some u)) "X-User-Username" =
          some u.username) ∧
    (∀ inbound : Headers, buildOutboundHeaders inbound none = stripHop inbound) ∧
    (∀ (inbound : Headers) (u : Option User) (h : String),
        h ∉ hop_by_hop_headers → h ≠ "X-User-Tier" → h ≠ "X-User-Username" →
        dictGet (buildOutboundHeaders inbound u) h = dictGet inbound h) := by
  refine ⟨fun inbound u => ⟨?_, ?_⟩, fun inbound => rfl,
    fun inbound u h hm ht hu => ?_⟩
  · simp [buildOutboundHeaders, dictGet_dictSet]
  · simp [buildOutboundHeaders, dictGet_dictSet]
  · cases u with
    | none => simp [buildOutboundHeaders, dictGet_stripHop, hm]
    | some u =>
        simp [buildOutboundHeaders, dictGet_dictSet, dictGet_stripHop,
          hm, ht, hu]

/-- Witness for the amended C2 at a concrete inbound header set. -/
theorem C2_amended_injection_witness :
    dictGet (buildOutboundHeaders [("x-user-tier", "enterprise")]
      (some bobUser)) "X-User-Tier" = some bobUser.tier ∧
    dictGet (buildOutboundHeaders [("x-user-tier", "enterprise")]
      (some bobUser)) "x-user-tier" = dictGet [("x-user-tier", "enterprise")]
      "x-user-tier" := by
  have h := C2_amended_injection
  exact ⟨(h.1 [("x-user-tier", "enterprise")] bobUser).1,
    h.2.2 [("x-user-tier", "enterprise")] (some bobUser) "x-user-tier"
      (by decide) (by decide) (by decide)⟩

/-- C10: with the credential-store client absent, API-key validation
returns no record for any key, authentication degenerates to the
bearer-token fallback (which never raises Unauthorized), so any request —
whatever key it presents — resolves to a bearer principal or anonymous
instead of failing. -/
theorem C10_fail_open_credentials (apiKeys : String → Option APIKey)
    (jd : String → JwtResult) (now : Nat) (headers query : Headers)
    (k : String) :
    validate_api_key apiKeys false k = none ∧
    authenticate_request apiKeys false jd now headers query =
      jwt_fallback jd headers ∧
    (jwt_fallback jd headers).isUnauthorized = false := by
  refine ⟨rfl, ?_, ?_⟩
  · unfold authenticate_request
    cases hk : get_api_key_from_header headers query with
    | none => rfl
    | some s => by_cases hs : s = "" <;> simp [validate_api_key, hs]
  · unfold jwt_fallback
    cases hah : dictGet headers "authorization" with
    | none => rfl
    | some ah =>
        dsimp only
        by_cases hc : ah ≠ "" ∧ strStartsWith ah "Bearer " = true
        · rw [if_pos hc]
          cases get_current_user jd ((splitSpace ah).getD 1 "") <;> rfl
        · rw [if_neg hc]
          rfl

/-- C1 is refuted: with the record `{key := "k1", enabled := false}` stored,
a request presenting that key does not fail with Unauthorized — the
`if key_info and key_info.enabled` guard makes a disabled key fall through
to the bearer/anonymous fallback — and the request is forwarded to the
backend (exactly one backend call is made). -/
theorem C1_counterexample :
    authenticate_request storeDisabledKey true jdRejectAll 0
      [("x-api-key", "k1")] [] = .anonymous ∧
    ((proxy_all_requests storeDisabledKey true jdRejectAll scriptAlwaysOk 0
        "GET" "blocks" [("x-api-key", "k1")] [] "" initialState).2.calls).length
      = 1 := by
  decide

/-- C1 amended: only an API key whose stored record is enabled and expired
(`expires_at` in the past) makes authentication fail with Unauthorized
without falling through — regardless of any bearer token in the request —
and such a request is never forwarded to the backend (the pipeline returns
the 401 with the state, hence the call log, unchanged). A record with
`enabled = false` instead falls through to bearer-token or anonymous
resolution exactly as if no API key had been presented. -/
theorem C1_amended_disabled_vs_expired :
    (∀ (apiKeys : String → Option APIKey) (jd : String → JwtResult) (now : Nat)
        (headers query : Headers) (k : String) (r1 : APIKey) (e : Nat),
        get_api_key_from_header headers query = some k → k ≠ "" →
        apiKeys k = some r1 → r1.enabled = true → r1.expires_at = some e →
        now > e →
        authenticate_request apiKeys true jd now headers query =
          .unauthorized "API key expired" ∧
        ∀ (script : Nat → BackendResult) (method path body : String)
            (st : GatewayState),
          proxy_all_requests apiKeys true jd script now method path headers
            query body st = (.error 401 "API key expired", st)) ∧
    (∀ (apiKeys : String → Option APIKey) (jd : String → JwtResult) (now : Nat)
        (headers query : Headers) (k : String) (r1 : APIKey),
        get_api_key_from_header headers query = some k → k ≠ "" →
        apiKeys k = some r1 → r1.enabled = false →
        authenticate_request apiKeys true jd now headers query =
          jwt_fallback jd headers) := by
  constructor
  · intro apiKeys jd now headers query k r1 e hget hk hr hen hexp hnow
    have hauth : authenticate_request apiKeys true jd now headers query =
        .unauthorized "API key expired" := by
      simp [authenticate_request, validate_api_key, hget, hk, hr, hen,
        hexp, hnow]
    refine ⟨hauth, fun script method path body st => ?_⟩
    simp [proxy_all_requests, hauth]
  · intro apiKeys jd now headers query k r1 hget hk hr hen
    simp [authenticate_request, validate_api_key, hget, hk, hr, hen]

/-- Witness for the amended C1: the enabled record expired at time 5 yields
the 401 at time 10 with no forwarding, and the disabled record falls
through to the JWT fallback. -/
theorem C1_amended_witness :
    authenticate_request storeExpiredKey true jdRejectAll 10
      [("x-api-key", "k2")] [] = .unauthorized "API key expired" ∧
    proxy_all_requests storeExpiredKey true jdRejectAll scriptAlwaysOk 10
      "GET" "blocks" [("x-api-key", "k2")] [] "" initialState =
      (.error 401 "API key expired", initialState) ∧
    authenticate_request storeDisabledKey true jdRejectAll 0
      [("x-api-key", "k1")] [] =
      jwt_fallback jdRejectAll [("x-api-key", "k1")] := by
  have ha := C1_amended_disabled_vs_expired.1 storeExpiredKey jdRejectAll 10
    [("x-api-key", "k2")] [] "k2"
    { key := "k2", name := "n2", expires_at := some 5 } 5
    (by decide) (by decide) (by decide) (by decide) (by decide) (by decide)
  have hb := C1_amended_disabled_vs_expired.2 storeDisabledKey jdRejectAll 0
    [("x-api-key", "k1")] [] "k1"
    { key := "k1", name := "n1", enabled := false }
    (by decide) (by decide) (by decide) (by decide)
  exact ⟨ha.1, ha.2 scriptAlwaysOk "GET" "blocks" "" initialState, hb⟩

/-- C3 settles as a code bug: at the failing input — a request whose only
credential is `Authorization: Bearer invalid-key`, with every decode
failing — `get_current_user` does raise the 401 credentials exception
(also when the subject claim is missing), but `authenticate_request` wraps
the fallback in `except Exception: pass`, so the request is resolved as
anonymous and forwarded to the backend, where the repository's own test
(`test_invalid_auth` in src/test_fastapi.py) expects a 401. -/
theorem C3_code_behavior :
    get_current_user jdRejectAll "invalid-key" = .error () ∧
    get_current_user (fun _ => .ok [("tier", "pro")]) "invalid-key" =
      .error () ∧
    authenticate_request storeEmpty true jdRejectAll 0
      [("authorization", "Bearer invalid-key")] [] = .anonymous ∧
    ((proxy_all_requests storeEmpty true jdRejectAll scriptAlwaysOk 0 "GET"
        "status" [("authorization", "Bearer invalid-key")] [] ""
        initialState).2.calls).length = 1 := by
  exact ⟨rfl, rfl, by decide, by decide⟩

/-- C4 is refuted: a successfully verified token whose claims carry no tier
claim yields a principal with tier "pro", not the most restrictive tier
"free" — the decoded claims play no part in the tier at all. -/
theorem C4_counterexample :
    jdAlice "tok" = .ok [("sub", "alice")] ∧
    dictGet [("sub", "alice")] "tier" = none ∧
    get_current_user jdAlice "tok" = .ok aliceUser ∧
    aliceUser.tier = "pro" ∧ ("pro" : String) ≠ "free" := by
  exact ⟨by decide, by decide, rfl, rfl, by decide⟩

/-- C4 amended: every successfully verified bearer token yields a principal
whose tier is the hard-coded constant "pro", regardless of the decoded
claims. -/
theorem C4_amended_tier_always_pro (jd : String → JwtResult) (t : String)
    (u : User) (h : get_current_user jd t = .ok u) : u.tier = "pro" := by
  cases hjd : jd t with
  | err => simp [get_current_user, hjd] at h
  | ok payload =>
      cases hs : dictGet payload "sub" with
      | none => simp [get_current_user, hjd, hs] at h
      | some s =>
          simp [get_current_user, hjd, hs] at h
          rw [← h]

/-- Witness for the amended C4 at the concrete token accepted by
`jdAlice`. -/
theorem C4_amended_witness : aliceUser.tier = "pro" :=
  C4_amended_tier_always_pro jdAlice "tok" aliceUser rfl

/-- C9 is refuted: a single failed background poll already drives the
stored backend status to "unreachable" — three consecutive failures are not
required — and the health endpoint reports that value. -/
theorem C9_counterexample :
    update_backend_status "healthy" [PollResult.exn] = "unreachable" ∧
    (health_check (update_backend_status "healthy" [PollResult.exn]) 0 0).backend_status
      = "unreachable" := by
  decide

/-- C9 amended: after any poll history, one more failed poll makes the
stored backend status "unreachable" (a single failure suffices), one more
successful 200 poll makes it "healthy" again, and the health endpoint is a
pure read of the stored value — it reports exactly the snapshot the poll
task last wrote, with no backend call of its own. -/
theorem C9_amended_single_poll (init : String) (polls : List PollResult)
    (s : String) (tNow up : Nat) :
    update_backend_status init (polls ++ [.exn]) = "unreachable" ∧
    update_backend_status init (polls ++ [.ok 200]) = "healthy" ∧
    (health_check s tNow up).backend_status = s := by
  refine ⟨?_, ?_, rfl⟩ <;>
    simp [update_backend_status, List.foldl_append, check_backend_health]

/-- C7: a backend call that times out yields the 504 GatewayTimeout
outcome, any other transport-level failure yields the 502 BadGateway
outcome, and neither is retried — even on a failure the pipeline makes
exactly one backend call for the request. -/
theorem C7_error_taxonomy :
    (∀ (script : Nat → BackendResult) (n : Nat) (method path : String)
        (inbound query : Headers) (body : String) (user : Option User),
        (script n = .timeout →
          (proxy_request script n method path inbound query body user).1 =
            .httpError 504 "Backend service timeout") ∧
        (script n = .transportError →
          (proxy_request script n method path inbound query body user).1 =
            .httpError 502 "Backend service unavailable")) ∧
    (∀ (apiKeys : String → Option APIKey) (jd : String → JwtResult)
        (script : Nat → BackendResult) (now : Nat) (method path : String)
        (headers query : Headers) (body : String) (st : GatewayState),
        authenticate_request apiKeys true jd now headers query = .anonymous →
        (script st.calls.length = .timeout ∨
          script st.calls.length = .transportError) →
        ((proxy_all_requests apiKeys true jd script now method path headers
            query body st).2.calls).length = st.calls.length + 1) := by
  constructor
  · intro script n method path inbound query body user
    exact ⟨fun hs => by simp [proxy_request, hs],
      fun hs => by simp [proxy_request, hs]⟩
  · intro apiKeys jd script now method path headers query body st hauth hsc
    rcases hsc with hs | hs <;>
      simp [proxy_all_requests, hauth, AuthOutcome.toUser, proxy_request, hs]

/-- Witness for C7 at a concrete timeout and a concrete transport
failure. -/
theorem C7_error_taxonomy_witness :
    (proxy_request scriptAlwaysTimeout 0 "GET" "x" [] [] "" none).1 =
      .httpError 504 "Backend service timeout" ∧
    (proxy_request scriptAlwaysDown 0 "GET" "x" [] [] "" none).1 =
      .httpError 502 "Backend service unavailable" ∧
    ((proxy_all_requests storeEmpty true jdRejectAll scriptAlwaysTimeout 0
        "GET" "x" [] [] "" initialState).2.calls).length =
      initialState.calls.length + 1 := by
  exact ⟨(C7_error_taxonomy.1 scriptAlwaysTimeout 0 "GET" "x" [] [] "" none).1 rfl,
    (C7_error_taxonomy.1 scriptAlwaysDown 0 "GET" "x" [] [] "" none).2 rfl,
    C7_error_taxonomy.2 storeEmpty jdRejectAll scriptAlwaysTimeout 0 "GET" "x"
      [] [] "" initialState (by decide) (Or.inl rfl)⟩

/-- C6 is refuted: a request whose backend call times out ends as the 504
error, yet no metrics observation at all is recorded for it — the
`except HTTPException: raise` arm re-raises 504 and 502 before the
status-labelled counter increment is reached, so they are not
distinguishable (nor even present) in the recorded metrics. -/
theorem C6_counterexample :
    (proxy_all_requests storeEmpty true jdRejectAll scriptAlwaysTimeout 0
      "GET" "status" [] [] "" initialState).1 =
      .error 504 "Backend service timeout" ∧
    (proxy_all_requests storeEmpty true jdRejectAll scriptAlwaysTimeout 0
      "GET" "status" [] [] "" initialState).2.metrics = [] := by
  decide

/-- C6 amended: only two outcomes record a status-labelled observation — a
rate-limited request records "429" and a successfully relayed response
records its backend status — while Unauthorized (401), GatewayTimeout (504)
and BadGateway (502) all propagate with the recorded metrics unchanged.
The forwarded-request clauses hold for every request the pipeline forwards:
any non-unauthorized auth outcome (anonymous or any resolved principal)
whose rate-limit decision admits it. -/
theorem C6_amended_metrics :
    (∀ (apiKeys : String → Option APIKey) (jd : String → JwtResult)
        (script : Nat → BackendResult) (now : Nat) (method path : String)
        (headers query : Headers) (body : String) (st : GatewayState)
        (d : String),
        authenticate_request apiKeys true jd now headers query =
          .unauthorized d →
        proxy_all_requests apiKeys true jd script now method path headers
          query body st = (.error 401 d, st)) ∧
    (∀ (apiKeys : String → Option APIKey) (jd : String → JwtResult)
        (script : Nat → BackendResult) (now : Nat) (method path : String)
        (headers query : Headers) (body : String) (st : GatewayState)
        (u : User),
        authenticate_request apiKeys true jd now headers query =
          .principal u →
        (rateLimitStep u.tier st.counter now).1 = false →
        proxy_all_requests apiKeys true jd script now method path headers
          query body st =
          (.error 429 "Rate limit exceeded",
           { counter := (rateLimitStep u.tier st.counter now).2,
             calls := st.calls,
             metrics := st.metrics ++
               [{ method := method, endpoint := path, status := "429" }] })) ∧
    (∀ (apiKeys : String → Option APIKey) (jd : String → JwtResult)
        (script : Nat → BackendResult) (now : Nat) (method path : String)
        (headers query : Headers) (body : String) (st : GatewayState)
        (out : AuthOutcome),
        authenticate_request apiKeys true jd now headers query = out →
        out.isUnauthorized = false →
        (admitDecision out st.counter now).1 = true →
        (script st.calls.length = .timeout →
          (proxy_all_requests apiKeys true jd script now method path headers
            query body st).1 = .error 504 "Backend service timeout" ∧
          (proxy_all_requests apiKeys true jd script now method path headers
            query body st).2.metrics = st.metrics) ∧
        (script st.calls.length = .transportError →
          (proxy_all_requests apiKeys true jd script now method path headers
            query body st).1 = .error 502 "Backend service unavailable" ∧
          (proxy_all_requests apiKeys true jd script now method path headers
            query body st).2.metrics = st.metrics) ∧
        (∀ (s : Nat) (rh : Headers) (rb : String),
          script st.calls.length = .success s rh rb →
          (proxy_all_requests apiKeys true jd script now method path headers
            query body st).2.metrics = st.metrics ++
            [{ method := method, endpoint := path, status := toString s }])) := by
  refine ⟨?_, ?_, ?_⟩
  · intro apiKeys jd script now method path headers query body st d hauth
    simp [proxy_all_requests, hauth]
  · intro apiKeys jd script now method path headers query body st u hauth hrl
    simp [proxy_all_requests, hauth, AuthOutcome.toUser, hrl]
  · intro apiKeys jd script now method path headers query body st out hauth
      hno hadm
    cases out with
    | unauthorized d => simp [AuthOutcome.isUnauthorized] at hno
    | anonymous =>
        refine ⟨fun hs => ?_, fun hs => ?_, fun s rh rb hs => ?_⟩ <;>
          simp [proxy_all_requests, hauth, AuthOutcome.toUser, proxy_request, hs]
    | principal u =>
        have hadm2 : (rateLimitStep u.tier st.counter now).1 = true := by
          simpa [admitDecision, AuthOutcome.toUser] using hadm
        refine ⟨fun hs => ?_, fun hs => ?_, fun s rh rb hs => ?_⟩ <;>
          simp [proxy_all_requests, hauth, AuthOutcome.toUser, proxy_request,
            hs, hadm2]

/-- Witness for the amended C6: the 401 and 429 paths, the anonymous
504/502/success paths, and an authenticated principal's admitted request
whose backend times out (no observation) or succeeds (status observation),
all at concrete inputs. -/
theorem C6_amended_metrics_witness :
    proxy_all_requests storeExpiredKey true jdRejectAll scriptAlwaysOk 10
      "GET" "x" [("x-api-key", "k2")] [] "" initialState =
      (.error 401 "API key expired", initialState) ∧
    proxy_all_requests storeFreeKey true jdRejectAll scriptAlwaysOk 0 "GET"
      "x" [("x-api-key", "kf")] [] "" overLimitState =
      (.error 429 "Rate limit exceeded",
       { counter := (rateLimitStep freeKeyUser.tier overLimitState.counter 0).2,
         calls := overLimitState.calls,
         metrics := overLimitState.metrics ++
           [{ method := "GET", endpoint := "x", status := "429" }] }) ∧
    (proxy_all_requests storeEmpty true jdRejectAll scriptAlwaysTimeout 0
      "GET" "x" [] [] "" initialState).2.metrics = initialState.metrics ∧
    (proxy_all_requests storeEmpty true jdRejectAll scriptAlwaysDown 0
      "GET" "x" [] [] "" initialState).2.metrics = initialState.metrics ∧
    (proxy_all_requests storeEmpty true jdRejectAll scriptAlwaysOk 0 "GET"
      "x" [] [] "" initialState).2.metrics = initialState.metrics ++
      [{ method := "GET", endpoint := "x", status := toString 200 }] ∧
    (proxy_all_requests storeFreeKey true jdRejectAll scriptAlwaysTimeout 0
      "GET" "x" [("x-api-key", "kf")] [] "" initialState).1 =
      .error 504 "Backend service timeout" ∧
    (proxy_all_requests storeFreeKey true jdRejectAll scriptAlwaysTimeout 0
      "GET" "x" [("x-api-key", "kf")] [] "" initialState).2.metrics =
      initialState.metrics ∧
    (proxy_all_requests storeFreeKey true jdRejectAll scriptAlwaysOk 0
      "GET" "x" [("x-api-key", "kf")] [] "" initialState).2.metrics =
      initialState.metrics ++
      [{ method := "GET", endpoint := "x", status := toString 200 }] := by
  have hanon := C6_amended_metrics.2.2 storeEmpty jdRejectAll
    scriptAlwaysTimeout 0 "GET" "x" [] [] "" initialState .anonymous
    (by decide) (by decide) (by decide)
  have hanonDown := C6_amended_metrics.2.2 storeEmpty jdRejectAll
    scriptAlwaysDown 0 "GET" "x" [] [] "" initialState .anonymous
    (by decide) (by decide) (by decide)
  have hanonOk := C6_amended_metrics.2.2 storeEmpty jdRejectAll
    scriptAlwaysOk 0 "GET" "x" [] [] "" initialState .anonymous
    (by decide) (by decide) (by decide)
  have hprinTo := C6_amended_metrics.2.2 storeFreeKey jdRejectAll
    scriptAlwaysTimeout 0 "GET" "x" [("x-api-key", "kf")] [] "" initialState
    (.principal freeKeyUser) (by decide) (by decide) (by decide)
  have hprinOk := C6_amended_metrics.2.2 storeFreeKey jdRejectAll
    scriptAlwaysOk 0 "GET" "x" [("x-api-key", "kf")] [] "" initialState
    (.principal freeKeyUser) (by decide) (by decide) (by decide)
  exact ⟨C6_amended_metrics.1 storeExpiredKey jdRejectAll scriptAlwaysOk 10
      "GET" "x" [("x-api-key", "k2")] [] "" initialState "API key expired"
      (by decide),
    C6_amended_metrics.2.1 storeFreeKey jdRejectAll scriptAlwaysOk 0 "GET"
      "x" [("x-api-key", "kf")] [] "" overLimitState freeKeyUser (by decide)
      (by decide),
    (hanon.1 rfl).2, (hanonDown.2.1 rfl).2, hanonOk.2.2 200 [] "ok" rfl,
    (hprinTo.1 rfl).1, (hprinTo.1 rfl).2, hprinOk.2.2 200 [] "ok" rfl⟩

/-! Rate-limiter lemmas for C5. -/

lemma tier_limits_pos (tier : String) : 1 ≤ tier_limits tier := by
  unfold tier_limits
  split_ifs <;> omega

lemma rateLimitStep_fresh (tier : String) (t : Nat) :
    rateLimitStep tier none t = (true, some (1, some (t + 60))) := by
  have h1 := tier_limits_pos tier
  simp [rateLimitStep, redisIncr, redisExpire, liveEntry, h1]

lemma rateLimitStep_live (tier : String) (k e t : Nat) (hk : 1 ≤ k)
    (ht : t < e) :
    rateLimitStep tier (some (k, some e)) t =
      (decide (k + 1 ≤ tier_limits tier), some (k + 1, some e)) := by
  have hne : ¬ (e ≤ t) := by omega
  have hk1 : ¬ (k + 1 = 1) := by omega
  simp [rateLimitStep, redisIncr, liveEntry, hne, hk1]

lemma rateLimitStep_expired (tier : String) (k e t : Nat) (ht : e ≤ t) :
    rateLimitStep tier (some (k, some e)) t = (true, some (1, some (t + 60))) := by
  have h1 := tier_limits_pos tier
  simp [rateLimitStep, redisIncr, redisExpire, liveEntry, ht, h1]

lemma runLimiter_window_state (tier : String) (t0 : Nat) :
    ∀ (ts : List Nat) (k : Nat), 1 ≤ k → (∀ t ∈ ts, t < t0 + 60) →
    (runLimiter tier ts (some (k, some (t0 + 60)))).2 =
      some (k + ts.length, some (t0 + 60)) := by
  intro ts
  induction ts with
  | nil => intro k hk hw; simp [runLimiter]
  | cons t ts ih =>
      intro k hk hw
      have hlt : t < t0 + 60 := hw t (by simp)
      have hstep := rateLimitStep_live tier k (t0 + 60) t hk hlt
      have hrec := ih (k + 1) (by omega) (fun x hx => hw x (by simp [hx]))
      simp only [runLimiter, hstep, hrec, List.length_cons,
        Option.some.injEq, Prod.mk.injEq]
      exact ⟨by omega, trivial⟩

lemma runLimiter_window_results (tier : String) (t0 : Nat) :
    ∀ (ts : List Nat) (k i : Nat), 1 ≤ k → (∀ t ∈ ts, t < t0 + 60) →
    i < ts.length →
    (runLimiter tier ts (some (k, some (t0 + 60)))).1.get? i =
      some (decide (k + 1 + i ≤ tier_limits tier)) := by
  intro ts
  induction ts with
  | nil => intro k i hk hw hi; simp at hi
  | cons t ts ih =>
      intro k i hk hw hi
      have hlt : t < t0 + 60 := hw t (by simp)
      have hstep := rateLimitStep_live tier k (t0 + 60) t hk hlt
      cases i with
      | zero => simp [runLimiter, hstep]
      | succ j =>
          have hj : j < ts.length := by simpa using hi
          have hrec := ih (k + 1) j (by omega)
            (fun x hx => hw x (by simp [hx])) hj
          simp only [runLimiter, hstep, List.get?_cons_succ]
          rw [show k + 1 + (j + 1) = k + 1 + 1 + j by omega]
          exact hrec

/-- C5: for a principal of any tier with limit L (`tier_limits`: free→10,
pro→100, enterprise→1000, default 10), starting from an absent counter,
the i-th of a burst of requests inside one 60-second window is admitted
exactly when i+1 ≤ L — so the first L are admitted and the (L+1)-th is
rejected — the counter after the burst equals the burst length with the
window expiry set by the first request, and a request after the window's
expiry is admitted again with a fresh counter equal to 1; at pipeline
level, an admitted request of an authenticated principal is forwarded
(exactly one backend call is appended) and a rejected one yields the 429
RateLimitExceeded error with no backend call. -/
theorem C5_fixed_window_rate_limiting :
    (∀ (tier : String) (t0 : Nat) (ts : List Nat),
        (∀ t ∈ ts, t < t0 + 60) →
        (∀ i, i < ts.length + 1 →
          (runLimiter tier (t0 :: ts) none).1.get? i =
            some (decide (i + 1 ≤ tier_limits tier))) ∧
        (runLimiter tier (t0 :: ts) none).2 =
          some (ts.length + 1, some (t0 + 60)) ∧
        (∀ t2, t0 + 60 ≤ t2 →
          rateLimitStep tier (runLimiter tier (t0 :: ts) none).2 t2 =
            (true, some (1, some (t2 + 60))))) ∧
    (∀ (apiKeys : String → Option APIKey) (jd : String → JwtResult)
        (script : Nat → BackendResult) (now : Nat) (method path : String)
        (headers query : Headers) (body : String) (st : GatewayState)
        (u : User),
        authenticate_request apiKeys true jd now headers query =
          .principal u →
        ((rateLimitStep u.tier st.counter now).1 = true →
          (proxy_all_requests apiKeys true jd script now method path headers
            query body st).2.calls = st.calls ++
            [(proxy_request script st.calls.length method path headers query
              body (some u)).2]) ∧
        ((rateLimitStep u.tier st.counter now).1 = false →
          proxy_all_requests apiKeys true jd script now method path headers
            query body st =
            (.error 429 "Rate limit exceeded",
             { counter := (rateLimitStep u.tier st.counter now).2,
               calls := st.calls,
               metrics := st.metrics ++
                 [{ method := method, endpoint := path, status := "429" }] }))) := by
  constructor
  · intro tier t0 ts hw
    have hfresh := rateLimitStep_fresh tier t0
    have hstate : (runLimiter tier (t0 :: ts) none).2 =
        some (ts.length + 1, some (t0 + 60)) := by
      have h2 := runLimiter_window_state tier t0 ts 1 le_rfl hw
      simp only [runLimiter, hfresh, h2, Option.some.injEq, Prod.mk.injEq]
      exact ⟨by omega, trivial⟩
    refine ⟨?_, hstate, fun t2 ht2 => ?_⟩
    · intro i hi
      cases i with
      | zero => simp [runLimiter, hfresh, tier_limits_pos]
      | succ j =>
          have hj : j < ts.length := by simpa using hi
          have hrec := runLimiter_window_results tier t0 ts 1 j le_rfl hw hj
          simp only [runLimiter, hfresh, List.get?_cons_succ]
          rw [show j + 1 + 1 = 1 + 1 + j by omega]
          exact hrec
    · rw [hstate]
      exact rateLimitStep_expired tier (ts.length + 1) (t0 + 60) t2 ht2
  · intro apiKeys jd script now method path headers query body st u hauth
    constructor
    · intro hrl
      cases hpr : (proxy_request script st.calls.length method path headers
          query body (some u)).1 with
      | ok resp =>
          simp [proxy_all_requests, hauth, AuthOutcome.toUser, hrl, hpr]
      | httpError s d =>
          simp [proxy_all_requests, hauth, AuthOutcome.toUser, hrl, hpr]
    · intro hrl
      simp [proxy_all_requests, hauth, AuthOutcome.toUser, hrl]

/-- Witness for C5: free tier, 11 requests at times 0..10 — the 10th is
admitted, the 11th rejected — counter 11 with expiry 60 after the burst, a
request at time 61 admitted again with a fresh counter of 1, and the
pipeline-level 429 at an over-limit state. -/
theorem C5_fixed_window_witness :
    (runLimiter "free" [0, 1, 2, 3, 4, 5, 6, 7, 8, 9, 10] none).1.get? 9 =
      some (decide (9 + 1 ≤ tier_limits "free")) ∧
    (runLimiter "free" [0, 1, 2, 3, 4, 5, 6, 7, 8, 9, 10] none).1.get? 10 =
      some (decide (10 + 1 ≤ tier_limits "free")) ∧
    (runLimiter "free" [0, 1, 2, 3, 4, 5, 6, 7, 8, 9, 10] none).2 =
      some (11, some 60) ∧
    rateLimitStep "free"
      (runLimiter "free" [0, 1, 2, 3, 4, 5, 6, 7, 8, 9, 10] none).2 61 =
      (true, some (1, some 121)) ∧
    proxy_all_requests storeFreeKey true jdRejectAll scriptAlwaysOk 0 "GET"
      "status" [("x-api-key", "kf")] [] "" overLimitState =
      (.error 429 "Rate limit exceeded",
       { counter := (rateLimitStep freeKeyUser.tier overLimitState.counter 0).2,
         calls := overLimitState.calls,
         metrics := overLimitState.metrics ++
           [{ method := "GET", endpoint := "status", status := "429" }] }) := by
  have h := C5_fixed_window_rate_limiting.1 "free" 0
    [1, 2, 3, 4, 5, 6, 7, 8, 9, 10] (by decide)
  have h2 := (C5_fixed_window_rate_limiting.2 storeFreeKey jdRejectAll
    scriptAlwaysOk 0 "GET" "status" [("x-api-key", "kf")] [] ""
    overLimitState freeKeyUser (by decide)).2 (by decide)
  exact ⟨h.1 9 (by decide), h.1 10 (by decide), h.2.1, h.2.2 61 (by decide), h2⟩

end Gateway
